import Mathlib

/-!
Verification development for the rotas repository (src/src/App.tsx).

The application core consists of:
- a GeoJSON-to-GPX converter (function geojsonToGpx, App.tsx lines 60-110),
- an inline GPX builder inside downloadGPX (lines 196-209),
- the line/pattern/route resolver searchRoute (lines 121-167),
- the shape fetcher fetchPattern (lines 169-179),
- the headsign splitter getRouteEndpoints (lines 181-187).

The GeoJSON conversion code is dynamically typed JavaScript operating on
arbitrary JSON values, so we embed a small model of JavaScript values
(JSVal) together with the property-access, indexing, truthiness and
string-interpolation ("template literal") semantics the source relies on.
JavaScript numbers are modelled as integer/denominator pairs (JNum); the
source performs no arithmetic on coordinates other than "length - 1", so
this representation is exact on every exercised path.  Number-to-string
conversion is modelled by an injective canonical rendering (JNum.disp),
standing in for JavaScript's ToString on numbers.
-/

/-- Model of a JavaScript number as an exact rational (numerator/denominator).
The source never performs arithmetic on coordinate values, so no
normalisation is needed; values built by the embedding always have den = 1
or come verbatim from the modelled input. -/
structure JNum where
  num : Int
  den : Nat
deriving DecidableEq, Repr

/-- Injective canonical rendering of a modelled number, standing in for
JavaScript's number ToString (the source interpolates numbers into template
literals without any formatting of its own). -/
def JNum.disp (q : JNum) : String :=
  if q.den = 1 then toString q.num else toString q.num ++ "/" ++ toString q.den

/-- Model of q - 1 as in "coordinates.length - 1".  On a non-number the
JavaScript result would be NaN; we return a non-number marker via den := 0
handled by the caller, but in fact we model NaN-indexing directly in the
indexing function, so the non-number case simply yields an out-of-range
value (see indexAt). -/
def JNum.sub1 (q : JNum) : JNum :=
  { num := q.num - q.den, den := q.den }

/-- Valid array index of a modelled number: JavaScript array indexing
arr[i] hits an element only for a non-negative integer i.  Our embedding
only ever indexes with integer-valued numbers (den = 1). -/
def JNum.toIndex? (q : JNum) : Option Nat :=
  if q.den = 1 ∧ 0 ≤ q.num then some q.num.toNat else none

/-- Model of a JavaScript (JSON) value. -/
inductive JSVal where
  | undefined
  | null
  | bool (b : Bool)
  | num (q : JNum)
  | str (s : String)
  | arr (elems : List JSVal)
  | obj (fields : List (String × JSVal))
deriving Repr

/-- JavaScript truthiness: undefined, null, false, 0 and "" are falsy;
objects and arrays are always truthy. -/
def jsTruthy : JSVal → Bool
  | .undefined => false
  | .null => false
  | .bool b => b
  | .num q => q.num != 0
  | .str s => s != ""
  | .arr _ => true
  | .obj _ => true

/-- Nullish test (used by the optional-chaining operator). -/
def jsNullish : JSVal → Bool
  | .undefined => true
  | .null => true
  | _ => false

/-- Strict equality against a string literal, modelling v === "lit" and
v !== "lit" on the paths the source uses (the source only compares against
string literals). -/
def jsEqStr (v : JSVal) (s : String) : Bool :=
  match v with
  | .str t => t = s
  | _ => false

/-- First-match field lookup in an object literal (the embedded objects
have unique keys). -/
def lookupField : List (String × JSVal) → String → JSVal
  | [], _ => .undefined
  | (k, v) :: rest, key => if k = key then v else lookupField rest key

mutual
/-- Model of JavaScript string conversion (template-literal interpolation):
String(v).  Arrays stringify as their elements joined with commas, with
undefined/null elements rendered empty. -/
def jsDisplay : JSVal → String
  | .undefined => "undefined"
  | .null => "null"
  | .bool b => if b then "true" else "false"
  | .num q => q.disp
  | .str s => s
  | .arr xs => String.intercalate "," (jsDisplayElems xs)
  | .obj _ => "[object Object]"

/-- Element-wise stringification used by array ToString. -/
def jsDisplayElems : List JSVal → List String
  | [] => []
  | .undefined :: rest => "" :: jsDisplayElems rest
  | .null :: rest => "" :: jsDisplayElems rest
  | v :: rest => jsDisplay v :: jsDisplayElems rest
end

/-- Error message used for a JavaScript TypeError (property access or
method call on undefined/null). -/
def typeErrorMsg : String := "TypeError"

/-- Property access v.k.  Accessing a property of undefined or null throws
a TypeError; any other value yields the field (objects), the length
(arrays and strings), or undefined.  Only identifier-named properties are
accessed by the source through this operation. -/
def getProp : JSVal → String → Except String JSVal
  | .undefined, _ => .error typeErrorMsg
  | .null, _ => .error typeErrorMsg
  | .obj fs, k => .ok (lookupField fs k)
  | .arr xs, k => .ok (if k = "length" then .num ⟨(xs.length : Int), 1⟩ else .undefined)
  | .str s, k => .ok (if k = "length" then .num ⟨(s.length : Int), 1⟩ else .undefined)
  | _, _ => .ok .undefined

/-- Total variant of getProp for values known not to be nullish (used in
theorem statements only). -/
def getPropD (v : JSVal) (k : String) : JSVal :=
  match getProp v k with
  | .ok r => r
  | .error _ => .undefined

/-- Computed member access v[i].  Indexing into undefined or null throws a
TypeError; array indexing with a non-negative in-range integer yields the
element and anything else yields undefined; object indexing coerces the
key with String(i); indexing a number or boolean yields undefined. -/
def indexAt : JSVal → JSVal → Except String JSVal
  | .undefined, _ => .error typeErrorMsg
  | .null, _ => .error typeErrorMsg
  | .arr xs, .num q =>
    .ok (match q.toIndex? with
      | some i => (xs[i]?).getD .undefined
      | none => .undefined)
  | .arr _, _ => .ok .undefined
  | .str s, .num q =>
    .ok (match q.toIndex? with
      | some i => ((s.data[i]?).map (fun c => JSVal.str (String.mk [c]))).getD .undefined
      | none => .undefined)
  | .str _, _ => .ok .undefined
  | .obj fs, i => .ok (lookupField fs (jsDisplay i))
  | _, _ => .ok .undefined

/-- JavaScript whitespace test for String.prototype.trim (ASCII part; the
line identifiers handled by the application are ASCII). -/
def jsWhitespace (c : Char) : Bool :=
  c = ' ' ∨ c = '\t' ∨ c = '\n' ∨ c = '\r' ∨ c = '\x0b' ∨ c = '\x0c'

/-- Model of String.prototype.trim. -/
def jsTrim (s : String) : String :=
  String.mk (((s.data.dropWhile jsWhitespace).reverse.dropWhile jsWhitespace).reverse)

/-- Model of Array.prototype.join(sep): empty list joins to "", a single
element joins to itself. -/
def joinSep (sep : String) : List String → String
  | [] => ""
  | [x] => x
  | x :: xs => x ++ sep ++ joinSep sep xs

/-- Sequential, fail-fast map over an array, modelling
Array.prototype.map with a callback that can throw: the first throwing
element aborts the whole map with its error. -/
def mapStrE (f : JSVal → Except String String) : List JSVal → Except String (List String)
  | [] => .ok []
  | v :: vs =>
    match f v, mapStrE f vs with
    | .ok s, .ok rest => .ok (s :: rest)
    | .error e, _ => .error e
    | _, .error e => .error e

/-! ## The GeoJSON-to-GPX converter (App.tsx, geojsonToGpx, lines 60-110) -/

/-- Error thrown by geojsonToGpx for a non-FeatureCollection input
(App.tsx line 62). -/
def invalidGeoJsonMsg : String :=
  "GeoJSON inválido. Certifique-se de que é um FeatureCollection."

/-- Error thrown by geojsonToGpx when the first or last coordinate lookup
yields a falsy value (App.tsx line 80). -/
def missingCoordsMsg : String := "Coordenadas de início ou fim não encontradas."

/-- Fixed document header emitted by geojsonToGpx (App.tsx lines 65-67). -/
def gpxHeader : String :=
  "<?xml version=\"1.0\" encoding=\"UTF-8\"?>\n<gpx version=\"1.1\" creator=\"CustomConverter\" xmlns=\"http://www.topografix.com/GPX/1/1\">\n"

/-- Evaluation of geojson.features[0]?.geometry.coordinates[0]
(App.tsx line 73).  The optional chain short-circuits to undefined when
features[0] is nullish; otherwise missing geometry or coordinates throws. -/
def firstCoordOf (f0 : JSVal) : Except String JSVal :=
  if jsNullish f0 then .ok .undefined
  else
    match getProp f0 "geometry" with
    | .error e => .error e
    | .ok g =>
      match getProp g "coordinates" with
      | .error e => .error e
      | .ok c => indexAt c (.num ⟨0, 1⟩)

/-- Evaluation of
geojson.features[0]?.geometry.coordinates[...length - 1] (App.tsx
lines 74-77). -/
def lastCoordOf (f0 : JSVal) : Except String JSVal :=
  if jsNullish f0 then .ok .undefined
  else
    match getProp f0 "geometry" with
    | .error e => .error e
    | .ok g =>
      match getProp g "coordinates" with
      | .error e => .error e
      | .ok c =>
        match getProp c "length" with
        | .error e => .error e
        | .ok len =>
          match len with
          | .num q => indexAt c (.num q.sub1)
          | _ => indexAt c .undefined

/-- The waypoint block of the template (App.tsx lines 83-90): exactly two
wpt elements, the first at the first coordinate entry carrying the origin
label, the second at the last coordinate entry carrying the destination
label; in each, the lon attribute precedes the lat attribute. -/
def waypointsBlock (fx fy lx ly : JSVal) (origin destination : String) : String :=
  "\n<wpt lon=\"" ++ jsDisplay fx ++ "\" lat=\"" ++ jsDisplay fy
    ++ "\">\n  <name>" ++ origin ++ "</name>\n</wpt>\n<wpt lon=\""
    ++ jsDisplay lx ++ "\" lat=\"" ++ jsDisplay ly
    ++ "\">\n  <name>" ++ destination ++ "</name>\n</wpt>\n"

/-- Track point line emitted for one coordinate of a LineString feature
(App.tsx lines 98-101): lon is written first, then lat. -/
def trkptJS (coordv : JSVal) : Except String String :=
  match indexAt coordv (.num ⟨0, 1⟩) with
  | .error e => .error e
  | .ok x =>
    match indexAt coordv (.num ⟨1, 1⟩) with
    | .error e => .error e
    | .ok y =>
      .ok ("<trkpt lon=\"" ++ jsDisplay x ++ "\" lat=\"" ++ jsDisplay y ++ "\"></trkpt>")

/-- Track element emitted for one feature of the collection (App.tsx
lines 95-106): a LineString feature yields a trk element whose name is
feature.properties?.name when truthy and the literal "Rota" otherwise, and
whose trkseg holds one trkpt per coordinate; any other feature yields the
empty string. -/
def featureBody (feature : JSVal) : Except String String :=
  match getProp feature "geometry" with
  | .error e => .error e
  | .ok g =>
    match getProp g "type" with
    | .error e => .error e
    | .ok ty =>
      if jsEqStr ty "LineString" then
        match getProp g "coordinates" with
        | .error e => .error e
        | .ok c =>
          match c with
          | .arr xs =>
            match mapStrE trkptJS xs with
            | .error e => .error e
            | .ok pts =>
              match getProp feature "properties" with
              | .error e => .error e
              | .ok props =>
                match (if jsNullish props then Except.ok JSVal.undefined else getProp props "name") with
                | .error e => .error e
                | .ok nm =>
                  .ok ("<trk><name>" ++ (if jsTruthy nm then jsDisplay nm else "Rota")
                    ++ "</name><trkseg>" ++ joinSep "\n" pts ++ "</trkseg></trk>")
          | _ => .error typeErrorMsg
      else
        .ok ""

/-- Embedding of geojsonToGpx (App.tsx lines 60-110): validates that the
input is truthy and typed "FeatureCollection", synthesises two waypoints
from the first feature's first and last coordinate entries (throwing when
either is falsy), emits one track per LineString feature, and concatenates
header, waypoints, body and footer. -/
def geojsonToGpx (geojson : JSVal) (origin destination : String) : Except String String :=
  if !(jsTruthy geojson) then .error invalidGeoJsonMsg
  else
    match getProp geojson "type" with
    | .error e => .error e
    | .ok ty =>
      if !(jsEqStr ty "FeatureCollection") then .error invalidGeoJsonMsg
      else
        match getProp geojson "features" with
        | .error e => .error e
        | .ok features =>
          match indexAt features (.num ⟨0, 1⟩) with
          | .error e => .error e
          | .ok f0 =>
            match firstCoordOf f0 with
            | .error e => .error e
            | .ok firstCoord =>
              match lastCoordOf f0 with
              | .error e => .error e
              | .ok lastCoord =>
                if !(jsTruthy firstCoord) || !(jsTruthy lastCoord) then
                  .error missingCoordsMsg
                else
                  match indexAt firstCoord (.num ⟨0, 1⟩) with
                  | .error e => .error e
                  | .ok fx =>
                    match indexAt firstCoord (.num ⟨1, 1⟩) with
                    | .error e => .error e
                    | .ok fy =>
                      match indexAt lastCoord (.num ⟨0, 1⟩) with
                      | .error e => .error e
                      | .ok lx =>
                        match indexAt lastCoord (.num ⟨1, 1⟩) with
                        | .error e => .error e
                        | .ok ly =>
                          let waypoints := waypointsBlock fx fy lx ly origin destination
                          match features with
                          | .arr xs =>
                            match mapStrE featureBody xs with
                            | .error e => .error e
                            | .ok parts =>
                              .ok (gpxHeader ++ waypoints ++ joinSep "\n" parts ++ "</gpx>")
                          | _ => .error typeErrorMsg

/-! ## Typed GeoJSON feature layer

Structured inputs over which the universally quantified theorems range.
GeoFeature.toJS injects them into the JavaScript value model; the
converter is always applied to the injected value, never to the typed
form directly. -/

/-- A GeoJSON feature as the application receives it: a LineString feature
with an optional name property and a coordinate list, or a Point feature. -/
inductive GeoFeature where
  | line (name : Option String) (coords : List (JNum × JNum))
  | point (x y : JNum)
deriving Repr

/-- JSON encoding of one (longitude, latitude) coordinate pair. -/
def coordJS (c : JNum × JNum) : JSVal := .arr [.num c.1, .num c.2]

/-- JSON encoding of a feature. -/
def GeoFeature.toJS : GeoFeature → JSVal
  | .line nm coords =>
    .obj [("geometry", .obj [("type", .str "LineString"),
                             ("coordinates", .arr (coords.map coordJS))]),
          ("properties", match nm with
            | some s => .obj [("name", .str s)]
            | none => .null)]
  | .point x y =>
    .obj [("geometry", .obj [("type", .str "Point"),
                             ("coordinates", .arr [.num x, .num y])]),
          ("properties", .null)]

/-- JSON encoding of a FeatureCollection. -/
def fcJS (feats : List GeoFeature) : JSVal :=
  .obj [("type", .str "FeatureCollection"), ("features", .arr (feats.map GeoFeature.toJS))]

/-- Rendered track point for one coordinate pair, as geojsonToGpx emits it. -/
def trkptStr (c : JNum × JNum) : String :=
  "<trkpt lon=\"" ++ c.1.disp ++ "\" lat=\"" ++ c.2.disp ++ "\"></trkpt>"

/-- Rendered waypoint entry, as geojsonToGpx emits it: the lon attribute
precedes the lat attribute, and the label goes into the name element. -/
def wptStr (c : JNum × JNum) (label : String) : String :=
  "<wpt lon=\"" ++ c.1.disp ++ "\" lat=\"" ++ c.2.disp ++ "\">\n  <name>" ++ label ++ "</name>\n</wpt>"

/-- Expected track element for a typed feature (computed on the typed
side; tied to the converter by evaluation lemmas). -/
def GeoFeature.bodyStr : GeoFeature → String
  | .line nm coords =>
    "<trk><name>"
      ++ (match nm with
          | some s => if s = "" then "Rota" else s
          | none => "Rota")
      ++ "</name><trkseg>" ++ joinSep "\n" (coords.map trkptStr) ++ "</trkseg></trk>"
  | .point _ _ => ""

/-- Track-point strings contributed by one feature: one per coordinate of
a LineString, none for a non-line feature. -/
def GeoFeature.trkParts : GeoFeature → List String
  | .line _ cs => cs.map trkptStr
  | .point _ _ => []

/-- All track-point strings contributed by the LineString features of a
collection, in feature order and, within a feature, in coordinate order. -/
def trackPointStrs (feats : List GeoFeature) : List String :=
  (feats.map GeoFeature.trkParts).flatten

/-! ## Decidable string-scanning helpers used by concrete statements -/

/-- Substring occurrence test on character lists. -/
def hasInfix (pat : List Char) : List Char → Bool
  | [] => pat.isEmpty
  | c :: rest => pat.isPrefixOf (c :: rest) || hasInfix pat rest

/-- Does a successful export contain the given substring? -/
def exceptOkHas (r : Except String String) (pat : String) : Bool :=
  match r with
  | .ok s => hasInfix pat.data s.data
  | .error _ => false

/-- Did the computation succeed? -/
def exceptIsOk {ε α : Type} (r : Except ε α) : Bool :=
  match r with
  | .ok _ => true
  | .error _ => false

/-! ## The headsign splitter (App.tsx, getRouteEndpoints, lines 181-187) -/

/-- The literal delimiter " - " used by headsign.split(' - '). -/
def delimChars : List Char := [' ', '-', ' ']

/-- Fuel-indexed model of String.prototype.split(' - '): scan left to
right, cutting at each leftmost occurrence of the delimiter.  The fuel is
always instantiated with the length of the scanned list, which bounds the
recursion. -/
def splitFuel : Nat → List Char → List (List Char)
  | _, [] => [[]]
  | 0, l => [l]
  | fuel + 1, c :: rest =>
    if delimChars.isPrefixOf (c :: rest) then
      [] :: splitFuel fuel (rest.drop 2)
    else
      match splitFuel fuel rest with
      | [] => [[c]]
      | p :: ps => (c :: p) :: ps

/-- Model of headsign.split(' - '). -/
def splitOnDelim (l : List Char) : List (List Char) := splitFuel l.length l

/-- Embedding of getRouteEndpoints (App.tsx lines 181-187): origin is
parts[0] and destination is parts[parts.length - 1] of the split. -/
def getRouteEndpoints (headsign : String) : String × String :=
  let parts := splitOnDelim headsign.data
  (String.mk (parts.headD []), String.mk (parts.getLastD []))

/-! ## Data model of the resolver (App.tsx lines 23-43) -/

/-- Line record returned by the lines endpoint (interface RouteDetails). -/
structure RouteDetails where
  short_name : String
  long_name : String
  municipalities : List String
  localities : List String
  patterns : List String
  routes : List String
deriving DecidableEq, Repr

/-- Pattern record (interface Pattern).  The patterns endpoint returns
such a record; searchRoute then overwrites route_long_name and long_name
with the parent route's long name. -/
structure Pattern where
  id : String
  headsign : String
  long_name : String
  shape_id : String
  route_id : String
  route_long_name : String
deriving DecidableEq, Repr

/-- Route record: only its long_name is consumed (App.tsx line 156). -/
structure RouteData where
  long_name : String
deriving DecidableEq, Repr

/-- Shape record (interface Shape): a geojson payload. -/
structure Shape where
  geojson : JSVal
deriving Repr

/-- Oracle for the HTTP JSON fetch collaborator: none models a non-success
response status for the given identifier. -/
structure FetchEnv where
  lines : String → Option RouteDetails
  patternsApi : String → Option Pattern
  routes : String → Option RouteData
  shapes : String → Option Shape

/-- Network requests the resolver can issue (used to state that the
validation failure issues none). -/
inductive Request where
  | lineReq (id : String)
  | patternReq (id : String)
  | routeReq (id : String)
  | shapeReq (id : String)
deriving DecidableEq, Repr

/-- Component state (the useState hooks of App, lines 113-119). -/
structure AppState where
  routeNumber : String
  routeDetails : Option RouteDetails
  patterns : List Pattern
  selectedPattern : Option Pattern
  shapeData : Option Shape
  loading : Bool
  error : String

/-- Initial component state. -/
def initState : AppState :=
  { routeNumber := "", routeDetails := none, patterns := [],
    selectedPattern := none, shapeData := none, loading := false, error := "" }

/-! ## Pattern resolution (App.tsx lines 143-160)

The Promise.all fan-out resolves each pattern identifier by fetching the
pattern record and then its parent route; the enriched record merges the
route's long name in.  Completion order of the in-flight requests is
modelled by an explicit order parameter (a permutation of the indices):
Promise.all settles with the first rejection in completion order, or with
the array of results in input order. -/

/-- Error thrown when the pattern fetch for an identifier fails
(App.tsx line 146). -/
def patternErrMsg (pid : String) : String := "Erro ao carregar o padrão " ++ pid

/-- Error thrown when the route fetch for an identifier fails
(App.tsx line 151). -/
def routeErrMsg (rid : String) : String := "Erro ao carregar a rota " ++ rid

/-- Resolution of one pattern identifier: fetch the pattern, fetch its
route, merge the route long name in (App.tsx lines 144-158). -/
def resolveOne (env : FetchEnv) (pid : String) : Except String Pattern :=
  match env.patternsApi pid with
  | none => .error (patternErrMsg pid)
  | some p =>
    match env.routes p.route_id with
    | none => .error (routeErrMsg p.route_id)
    | some r => .ok { p with route_long_name := r.long_name, long_name := r.long_name }

/-- Collect the per-identifier results in input order (the success case of
Promise.all). -/
def sequenceE : List (Except String Pattern) → Except String (List Pattern)
  | [] => .ok []
  | .error e :: _ => .error e
  | .ok a :: rest =>
    match sequenceE rest with
    | .ok l => .ok (a :: l)
    | .error e => .error e

/-- The rejection reason of the first request, in completion order, that
rejected (none when every request inspected along the order succeeded). -/
def firstRejection (rs : List (Except String Pattern)) (order : List Nat) : Option String :=
  order.findSome? (fun i =>
    match rs[i]? with
    | some (Except.error e) => some e
    | _ => none)

/-- Embedding of the Promise.all fan-out of searchRoute (App.tsx
lines 143-160), called resolvePatterns in the specification.  The order
argument is the completion order of the concurrent requests. -/
def resolvePatterns (env : FetchEnv) (pids : List String) (order : List Nat) :
    Except String (List Pattern) :=
  let rs := pids.map (resolveOne env)
  match firstRejection rs order with
  | some e => .error e
  | none => sequenceE rs

/-! ## searchRoute (App.tsx lines 121-167) -/

/-- Validation message for an empty line identifier (App.tsx line 123). -/
def emptyLineMsg : String := "Por favor, insira o número da rota."

/-- Error for a non-success lines response (App.tsx line 137). -/
def notFoundMsg : String := "Rota não encontrada"

/-- Requests issued by the fan-out: every pattern request is issued, and a
route request follows for each pattern fetch that succeeded. -/
def patternRequests (env : FetchEnv) (pids : List String) : List Request :=
  (pids.map (fun pid =>
    Request.patternReq pid ::
      (match env.patternsApi pid with
       | some p => [Request.routeReq p.route_id]
       | none => []))).flatten

/-- Embedding of searchRoute (App.tsx lines 121-167), returning the new
component state and the list of network requests issued.  An identifier
that is empty after trimming sets the validation message and returns
before any request; otherwise the line is fetched and, on success, the
pattern fan-out runs. -/
def searchRoute (env : FetchEnv) (order : List Nat) (st : AppState) :
    AppState × List Request :=
  if jsTrim st.routeNumber = "" then
    ({ st with error := emptyLineMsg }, [])
  else
    let st1 := { st with loading := true,
                         error := "",
                         routeDetails := none,
                         selectedPattern := none,
                         shapeData := none,
                         patterns := [] }
    match env.lines st.routeNumber with
    | none => ({ st1 with error := notFoundMsg, loading := false }, [Request.lineReq st.routeNumber])
    | some data =>
      let st2 := { st1 with routeDetails := some data }
      let reqs := Request.lineReq st.routeNumber :: patternRequests env data.patterns
      match resolvePatterns env data.patterns order with
      | .error e => ({ st2 with error := e, loading := false }, reqs)
      | .ok ps => ({ st2 with patterns := ps, loading := false }, reqs)

/-! ## fetchPattern as an event system (App.tsx lines 169-179)

fetchPattern synchronously sets the selected pattern, then awaits the
shape fetch and commits its result with no staleness check: the completion
handler neither compares the issuing pattern with the current selection
nor clears the previously loaded shape on selection. -/

/-- Shape fetch failure message (App.tsx line 173). -/
def shapeErrMsg : String := "Erro ao carregar o shape"

/-- The synchronous prefix of fetchPattern: setSelectedPattern(pattern)
(App.tsx line 171).  The previously loaded shape is left in place. -/
def selectPattern (st : AppState) (p : Pattern) : AppState :=
  { st with selectedPattern := some p }

/-- The completion handler of a shape fetch (App.tsx lines 172-178):
commit the shape (or the error) unconditionally. -/
def applyShapeResult (st : AppState) (res : Option Shape) : AppState :=
  match res with
  | some sh => { st with shapeData := some sh }
  | none => { st with error := shapeErrMsg }

/-- Interleaving events: a click selecting a pattern, or the completion of
the shape fetch that some earlier selection issued. -/
inductive FetchEvent where
  | select (p : Pattern)
  | shapeArrives (issuedFor : Pattern) (res : Option Shape)

/-- Run a sequence of interleaving events against the component state. -/
def runEvents (st : AppState) : List FetchEvent → AppState
  | [] => st
  | .select p :: rest => runEvents (selectPattern st p) rest
  | .shapeArrives _ res :: rest => runEvents (applyShapeResult st res) rest

/-! ## downloadGPX (App.tsx lines 189-226) -/

/-- Guard message when no pattern is selected or shape or line details are
missing (App.tsx line 191). -/
def noSelectionMsg : String := "Nenhum padrão selecionado ou dados de forma indisponíveis."

/-- Catch-all error message of downloadGPX (App.tsx line 224). -/
def downloadGpxErrorMsg : String := "Erro ao gerar arquivo GPX"

/-- One track point of the inline template (App.tsx lines 203-205): here
lat precedes lon, and the line is indented by six spaces. -/
def dlTrkpt (coordv : JSVal) : Except String String :=
  match indexAt coordv (.num ⟨1, 1⟩) with
  | .error e => .error e
  | .ok y =>
    match indexAt coordv (.num ⟨0, 1⟩) with
    | .error e => .error e
    | .ok x =>
      .ok ("      <trkpt lat=\"" ++ jsDisplay y ++ "\" lon=\"" ++ jsDisplay x ++ "\"></trkpt>")

/-- The GPX document built inline by downloadGPX (App.tsx lines 196-209):
a single trk named by the selected pattern's headsign, with one trkpt per
coordinate of shapeData.geojson.geometry.coordinates, wrapped by the
template literal and trimmed. -/
def downloadGpxString (headsign : String) (geojson : JSVal) : Except String String :=
  match getProp geojson "geometry" with
  | .error e => .error e
  | .ok g =>
    match getProp g "coordinates" with
    | .error e => .error e
    | .ok c =>
      match c with
      | .arr xs =>
        match mapStrE dlTrkpt xs with
        | .error e => .error e
        | .ok pts =>
          .ok (jsTrim
            ("<?xml version=\"1.0\" encoding=\"UTF-8\"?>\n<gpx version=\"1.1\" creator=\"Carris Metropolitana\">\n  <trk>\n    <name>"
              ++ headsign ++ "</name>\n    <trkseg>\n" ++ joinSep "\n" pts
              ++ "\n    </trkseg>\n  </trk>\n</gpx>"))
      | _ => .error typeErrorMsg

/-- Embedding of downloadGPX (App.tsx lines 189-226): when any of the
selected pattern, the shape data or the line details is missing, set the
guard message and produce no document; otherwise produce the inline GPX
document (the browser download trigger is the external collaborator), with
the catch-all error message when the template evaluation throws. -/
def downloadGPX (st : AppState) : AppState × Option String :=
  match st.selectedPattern, st.shapeData, st.routeDetails with
  | some sp, some sh, some _ =>
    (match downloadGpxString sp.headsign sh.geojson with
     | .ok s => (st, some s)
     | .error _ => ({ st with error := downloadGpxErrorMsg }, none))
  | _, _, _ => ({ st with error := noSelectionMsg }, none)

/-! ## Evaluation lemmas: the converter on typed feature collections -/

theorem trkptJS_coordJS (c : JNum × JNum) : trkptJS (coordJS c) = .ok (trkptStr c) := rfl

theorem mapStrE_trkptJS (cs : List (JNum × JNum)) :
    mapStrE trkptJS (cs.map coordJS) = .ok (cs.map trkptStr) := by
  induction cs with
  | nil => rfl
  | cons c rest ih => simp [mapStrE, ih, trkptJS_coordJS]

theorem featureBody_toJS (f : GeoFeature) :
    featureBody f.toJS = .ok f.bodyStr := by
  cases f with
  | line nm coords =>
    cases nm with
    | none =>
      simp [featureBody, GeoFeature.toJS, GeoFeature.bodyStr, getProp, lookupField,
        jsEqStr, jsNullish, mapStrE_trkptJS, jsTruthy]
    | some s =>
      by_cases hs : s = "" <;>
        simp [featureBody, GeoFeature.toJS, GeoFeature.bodyStr, getProp, lookupField,
          jsEqStr, jsNullish, mapStrE_trkptJS, jsTruthy, jsDisplay, hs]
  | point x y => rfl

theorem mapStrE_featureBody (feats : List GeoFeature) :
    mapStrE featureBody (feats.map GeoFeature.toJS) = .ok (feats.map GeoFeature.bodyStr) := by
  induction feats with
  | nil => rfl
  | cons f rest ih => simp [mapStrE, ih, featureBody_toJS]

theorem getElem?_cons_length {α : Type} (a : α) (l : List α) :
    (a :: l)[l.length]? = some ((a :: l).getLast (List.cons_ne_nil a l)) := by
  induction l generalizing a with
  | nil => rfl
  | cons b t ih =>
    simp only [List.length_cons, List.getElem?_cons_succ]
    rw [ih b, List.getLast_cons (List.cons_ne_nil b t)]

/-- Full evaluation of geojsonToGpx on a feature collection whose first
feature is a LineString with a nonempty coordinate list: the output is the
header, the two-waypoint block at the first and last coordinate pair, the
newline-joined track bodies of all features, and the footer. -/
theorem geojsonToGpx_eval (nm : Option String) (c : JNum × JNum) (cs : List (JNum × JNum))
    (rest : List GeoFeature) (o d : String) :
    geojsonToGpx (fcJS (GeoFeature.line nm (c :: cs) :: rest)) o d =
      .ok (gpxHeader
        ++ waypointsBlock (.num c.1) (.num c.2)
            (.num ((c :: cs).getLast (List.cons_ne_nil c cs)).1)
            (.num ((c :: cs).getLast (List.cons_ne_nil c cs)).2) o d
        ++ joinSep "\n" ((GeoFeature.line nm (c :: cs) :: rest).map GeoFeature.bodyStr)
        ++ "</gpx>") := by
  have hlast : ((c :: cs).map coordJS)[cs.length]? =
      some (coordJS ((c :: cs).getLast (List.cons_ne_nil c cs))) := by
    have hne : (c :: cs).map coordJS ≠ [] := by simp
    have hlen : cs.length = ((c :: cs).map coordJS).length - 1 := by simp
    rw [hlen, ← List.getLast?_eq_getElem?, List.getLast?_map,
      List.getLast?_eq_getLast (c :: cs) (List.cons_ne_nil c cs), Option.map_some']
  have hlast' : (coordJS c :: List.map coordJS cs)[cs.length]? =
      some (coordJS ((c :: cs).getLast (List.cons_ne_nil c cs))) := by
    simpa using hlast
  have hb : cs.length < (coordJS c :: List.map coordJS cs).length := by simp
  have hlast2 : (coordJS c :: List.map coordJS cs)[cs.length] =
      coordJS ((c :: cs).getLast (List.cons_ne_nil c cs)) := by
    have h2 := hlast'
    rw [List.getElem?_eq_getElem hb] at h2
    exact Option.some.inj h2
  simp only [coordJS] at hlast2
  have hidx : (JNum.sub1 { num := (cs.length : Int) + 1, den := 1 }).toIndex? = some cs.length := by
    simp [JNum.sub1, JNum.toIndex?]
  have hbody : mapStrE featureBody
      (GeoFeature.toJS (GeoFeature.line nm (c :: cs)) :: List.map GeoFeature.toJS rest) =
      .ok ((GeoFeature.line nm (c :: cs)).bodyStr :: List.map GeoFeature.bodyStr rest) := by
    simpa using mapStrE_featureBody (GeoFeature.line nm (c :: cs) :: rest)
  simp only [GeoFeature.toJS, coordJS, List.map_cons] at hbody
  have h0 : JNum.toIndex? { num := 0, den := 1 } = some 0 := rfl
  have h1 : JNum.toIndex? { num := 1, den := 1 } = some 1 := rfl
  simp [geojsonToGpx, fcJS, GeoFeature.toJS, getProp, lookupField, indexAt,
    jsTruthy, jsNullish, jsEqStr,
    firstCoordOf, lastCoordOf, coordJS, hbody, hlast', hlast2, hidx, h0, h1]

/-! ## Ordered-occurrence predicate -/

/-- AppearsInOrder parts s holds when all the strings of parts occur
inside s, pairwise disjointly and in the given order: s decomposes as
glue, part, glue, part, ..., glue. -/
inductive AppearsInOrder : List String → String → Prop where
  | nil (s : String) : AppearsInOrder [] s
  | cons (pre p : String) (ps : List String) (rest : String) :
      AppearsInOrder ps rest → AppearsInOrder (p :: ps) (pre ++ p ++ rest)

theorem AppearsInOrder.append_right {ps : List String} {s : String}
    (h : AppearsInOrder ps s) (t : String) : AppearsInOrder ps (s ++ t) := by
  induction h generalizing t with
  | nil s => exact .nil (s ++ t)
  | cons pre p ps rest hr ih =>
    have := AppearsInOrder.cons pre p ps (rest ++ t) (ih t)
    simpa [String.append_assoc] using this

theorem AppearsInOrder.prepend {ps : List String} {s : String}
    (h : AppearsInOrder ps s) (t : String) : AppearsInOrder ps (t ++ s) := by
  cases h with
  | nil s => exact .nil (t ++ s)
  | cons pre p ps rest hr =>
    have := AppearsInOrder.cons (t ++ pre) p ps rest hr
    simpa [String.append_assoc] using this

theorem AppearsInOrder.compose {ps qs : List String} {s t : String}
    (h1 : AppearsInOrder ps s) (h2 : AppearsInOrder qs t) :
    AppearsInOrder (ps ++ qs) (s ++ t) := by
  induction h1 with
  | nil s => exact h2.prepend s
  | cons pre p ps rest hr ih =>
    have := AppearsInOrder.cons pre p (ps ++ qs) (rest ++ t) ih
    simpa [String.append_assoc] using this

theorem appearsInOrder_joinSep (sep : String) (ps : List String) :
    AppearsInOrder ps (joinSep sep ps) := by
  induction ps with
  | nil => exact .nil _
  | cons x xs ih =>
    cases xs with
    | nil =>
      have := AppearsInOrder.cons "" x [] "" (.nil "")
      simpa [joinSep] using this
    | cons y ys =>
      have := AppearsInOrder.cons "" x (y :: ys) (sep ++ joinSep sep (y :: ys)) (ih.prepend sep)
      simpa [joinSep, String.append_assoc] using this

theorem appearsInOrder_trkParts (f : GeoFeature) :
    AppearsInOrder f.trkParts f.bodyStr := by
  cases f with
  | line nm cs =>
    have h := (appearsInOrder_joinSep "\n" (cs.map trkptStr)).prepend
      ("<trk><name>"
        ++ (match nm with
            | some s => if s = "" then "Rota" else s
            | none => "Rota")
        ++ "</name><trkseg>")
    have h2 := h.append_right "</trkseg></trk>"
    simpa [GeoFeature.trkParts, GeoFeature.bodyStr, String.append_assoc] using h2
  | point x y => exact .nil _

theorem appearsInOrder_trackPointStrs (feats : List GeoFeature) :
    AppearsInOrder (trackPointStrs feats) (joinSep "\n" (feats.map GeoFeature.bodyStr)) := by
  induction feats with
  | nil => exact .nil _
  | cons f fs ih =>
    cases fs with
    | nil =>
      have := appearsInOrder_trkParts f
      simpa [trackPointStrs, joinSep] using this
    | cons g gs =>
      have hcomp := (appearsInOrder_trkParts f).compose
        ((by simpa [trackPointStrs] using ih :
          AppearsInOrder (trackPointStrs (g :: gs)) (joinSep "\n" ((g :: gs).map GeoFeature.bodyStr))).prepend "\n")
      simpa [trackPointStrs, joinSep, String.append_assoc] using hcomp

/-! ## Lemmas about the Promise.all model -/

theorem sequenceE_map_ok (l : List Pattern) : sequenceE (l.map Except.ok) = .ok l := by
  induction l with
  | nil => rfl
  | cons a rest ih => simp [sequenceE, ih]

theorem sequenceE_ok_inv {rs : List (Except String Pattern)} {l : List Pattern}
    (h : sequenceE rs = .ok l) : rs = l.map Except.ok := by
  induction rs generalizing l with
  | nil =>
    simp [sequenceE] at h
    simp [← h]
  | cons r rest ih =>
    cases r with
    | error e => simp [sequenceE] at h
    | ok a =>
      cases hrest : sequenceE rest with
      | error e => rw [sequenceE, hrest] at h; exact absurd h (by simp)
      | ok l' =>
        rw [sequenceE, hrest] at h
        cases h
        simp [ih hrest]

theorem all_ok_exists {rs : List (Except String Pattern)}
    (h : ∀ r ∈ rs, exceptIsOk r = true) : ∃ l : List Pattern, rs = l.map Except.ok := by
  induction rs with
  | nil => exact ⟨[], rfl⟩
  | cons r rest ih =>
    obtain ⟨l, hl⟩ := ih (fun x hx => h x (List.mem_cons_of_mem r hx))
    cases r with
    | error e => simpa [exceptIsOk] using h (.error e) (List.mem_cons_self _ _)
    | ok a => exact ⟨a :: l, by simp [hl]⟩

theorem firstRejection_none {rs : List (Except String Pattern)} {order : List Nat}
    (h : ∀ i ∈ order, ∀ e, rs[i]? ≠ some (Except.error e)) :
    firstRejection rs order = none := by
  rw [firstRejection, List.findSome?_eq_none_iff]
  intro i hi
  cases hx : rs[i]? with
  | none => simp
  | some r =>
    cases r with
    | error e => exact absurd hx (h i hi e)
    | ok a => simp

/-- C3: with the completion order any permutation of the request indices,
the Promise.all fan-out is all-or-nothing: when every pattern resolution
succeeds the result is a complete list (one entry per identifier), and
when any pattern-or-route fetch fails the whole operation fails with the
single error produced by a failing identifier's resolution (whose message
names the identifier that failed, see resolveOne), and no partial list is
returned. -/
theorem claim_c3 (env : FetchEnv) (pids : List String) (order : List Nat)
    (hperm : order.Perm (List.range pids.length)) :
    ((∀ pid ∈ pids, exceptIsOk (resolveOne env pid) = true) →
        ∃ l : List Pattern, resolvePatterns env pids order = .ok l ∧ l.length = pids.length)
    ∧ ((∃ pid ∈ pids, exceptIsOk (resolveOne env pid) = false) →
        ∃ e, resolvePatterns env pids order = .error e ∧
          ∃ pid ∈ pids, resolveOne env pid = .error e) := by
  constructor
  · intro hall
    have hall' : ∀ r ∈ pids.map (resolveOne env), exceptIsOk r = true := by
      intro r hr
      obtain ⟨pid, hpid, rfl⟩ := List.mem_map.mp hr
      exact hall pid hpid
    obtain ⟨l, hl⟩ := all_ok_exists hall'
    have hnone : firstRejection (pids.map (resolveOne env)) order = none := by
      apply firstRejection_none
      intro i hi e hcon
      have hmem : Except.error e ∈ pids.map (resolveOne env) := List.getElem?_mem hcon
      have := hall' _ hmem
      simp [exceptIsOk] at this
    refine ⟨l, ?_, ?_⟩
    · simp only [resolvePatterns, hnone]
      rw [hl, sequenceE_map_ok]
    · have := congrArg List.length hl
      simpa using this.symm
  · rintro ⟨pid, hpid, hfail⟩
    obtain ⟨j, hj, hjget⟩ := List.mem_iff_getElem.mp hpid
    have hrsj : (pids.map (resolveOne env))[j]? = some (resolveOne env pid) := by
      rw [List.getElem?_map, List.getElem?_eq_getElem hj, hjget, Option.map_some']
    cases hfr : firstRejection (pids.map (resolveOne env)) order with
    | none =>
      exfalso
      rw [firstRejection, List.findSome?_eq_none_iff] at hfr
      have hjmem : j ∈ order := hperm.mem_iff.mpr (List.mem_range.mpr hj)
      have hj2 := hfr j hjmem
      cases hro : resolveOne env pid with
      | ok a => rw [hro] at hfail; simp [exceptIsOk] at hfail
      | error e => rw [hrsj, hro] at hj2; simp at hj2
    | some e =>
      refine ⟨e, by simp only [resolvePatterns, hfr], ?_⟩
      obtain ⟨i, hi, hfi⟩ := List.exists_of_findSome?_eq_some hfr
      cases hx : (pids.map (resolveOne env))[i]? with
      | none => rw [hx] at hfi; simp at hfi
      | some r =>
        cases r with
        | ok a => rw [hx] at hfi; simp at hfi
        | error e' =>
          rw [hx] at hfi
          simp at hfi
          subst hfi
          rw [List.getElem?_map] at hx
          obtain ⟨p, hp1, hp2⟩ := Option.map_eq_some'.mp hx
          exact ⟨p, List.getElem?_mem hp1, hp2⟩

/-- C4: when the fan-out succeeds, the i-th element of the result is the
resolution of the i-th input identifier, and the result is the same under
every completion order. -/
theorem claim_c4 (env : FetchEnv) (pids : List String) (order : List Nat)
    (l : List Pattern) (_hperm : order.Perm (List.range pids.length))
    (hok : resolvePatterns env pids order = .ok l) :
    l.length = pids.length
    ∧ (∀ (i : Nat) (hi : i < pids.length) (hl : i < l.length),
        resolveOne env (pids.get ⟨i, hi⟩) = .ok (l.get ⟨i, hl⟩))
    ∧ (∀ order2 : List Nat, order2.Perm (List.range pids.length) →
        resolvePatterns env pids order2 = .ok l) := by
  have hseq : sequenceE (pids.map (resolveOne env)) = .ok l := by
    rw [resolvePatterns] at hok
    cases hfr : firstRejection (pids.map (resolveOne env)) order with
    | none => rw [hfr] at hok; exact hok
    | some e => rw [hfr] at hok; exact absurd hok (by simp)
  have hmap : pids.map (resolveOne env) = l.map Except.ok := sequenceE_ok_inv hseq
  have hlen : l.length = pids.length := by
    have := congrArg List.length hmap
    simpa using this.symm
  refine ⟨hlen, ?_, ?_⟩
  · intro i hi hli
    have h1 : (pids.map (resolveOne env))[i]? = some (resolveOne env (pids.get ⟨i, hi⟩)) := by
      rw [List.getElem?_map, List.getElem?_eq_getElem hi, Option.map_some']
      rfl
    have h2 : (l.map (Except.ok : Pattern → Except String Pattern))[i]? =
        some (Except.ok (l.get ⟨i, hli⟩)) := by
      rw [List.getElem?_map, List.getElem?_eq_getElem hli, Option.map_some']
      rfl
    rw [hmap, h2] at h1
    exact (Option.some.inj h1).symm
  · intro order2 hperm2
    have hnone : firstRejection (pids.map (resolveOne env)) order2 = none := by
      apply firstRejection_none
      intro i hi e hcon
      rw [hmap] at hcon
      have := List.getElem?_mem hcon
      simp at this
    simp only [resolvePatterns, hnone, hseq]

/-! ## Auxiliary facts for the claims -/

theorem getProp_of_truthy {v : JSVal} (h : jsTruthy v = true) (k : String) :
    getProp v k = .ok (getPropD v k) := by
  cases v <;> simp_all [jsTruthy, getProp, getPropD]

/-- Oracle on which every fetch fails (used by witnesses only). -/
def envTrivial : FetchEnv :=
  { lines := fun _ => none, patternsApi := fun _ => none,
    routes := fun _ => none, shapes := fun _ => none }

/-- Oracle on which every pattern and route fetch succeeds (used by
witnesses only). -/
def envOk : FetchEnv :=
  { lines := fun _ => none,
    patternsApi := fun pid => some { id := pid, headsign := "H1 - H2", long_name := "",
                                     shape_id := "sh-" ++ pid, route_id := "r-" ++ pid,
                                     route_long_name := "" },
    routes := fun rid => some { long_name := "Long " ++ rid },
    shapes := fun _ => none }

/-- The enriched pattern envOk yields for identifier p1. -/
def patW : Pattern :=
  { id := "p1", headsign := "H1 - H2", long_name := "Long r-p1",
    shape_id := "sh-p1", route_id := "r-p1", route_long_name := "Long r-p1" }

/-! ## Claim theorems -/

/-- C1, amended: for every feature collection whose first feature is a
line geometry with at least one coordinate pair, the export succeeds and
every coordinate pair present in a line-geometry feature appears in the
output as a track point, in feature order and coordinate order, rendered
with its exact numeric value; coordinate pairs of non-line features are
omitted (see the counterexample). -/
theorem claim_c1 (nm : Option String) (c : JNum × JNum) (cs : List (JNum × JNum))
    (rest : List GeoFeature) (o d : String) :
    ∃ s, geojsonToGpx (fcJS (GeoFeature.line nm (c :: cs) :: rest)) o d = .ok s
      ∧ AppearsInOrder (trackPointStrs (GeoFeature.line nm (c :: cs) :: rest)) s := by
  refine ⟨_, geojsonToGpx_eval nm c cs rest o d, ?_⟩
  exact ((appearsInOrder_trackPointStrs (GeoFeature.line nm (c :: cs) :: rest)).prepend
    (gpxHeader ++ waypointsBlock (.num c.1) (.num c.2)
      (.num ((c :: cs).getLast (List.cons_ne_nil c cs)).1)
      (.num ((c :: cs).getLast (List.cons_ne_nil c cs)).2) o d)).append_right "</gpx>"

set_option maxRecDepth 4000 in
/-- C1 counterexample: a structurally valid feature collection holding a
LineString and a Point is exported without error, the line coordinate
appears as a track point, but the point feature's coordinate pair (7, 9)
appears nowhere in the output: the claim's assertion of no omission over
every coordinate pair present in the input geometry is false. -/
theorem claim_c1_counterexample :
    exceptIsOk (geojsonToGpx (fcJS [GeoFeature.line none [(⟨1, 1⟩, ⟨2, 1⟩)],
        GeoFeature.point ⟨7, 1⟩ ⟨9, 1⟩]) "A" "B") = true
    ∧ exceptOkHas (geojsonToGpx (fcJS [GeoFeature.line none [(⟨1, 1⟩, ⟨2, 1⟩)],
        GeoFeature.point ⟨7, 1⟩ ⟨9, 1⟩]) "A" "B") "<trkpt lon=\"1\" lat=\"2\"></trkpt>" = true
    ∧ exceptOkHas (geojsonToGpx (fcJS [GeoFeature.line none [(⟨1, 1⟩, ⟨2, 1⟩)],
        GeoFeature.point ⟨7, 1⟩ ⟨9, 1⟩]) "A" "B") "lon=\"7\"" = false := by
  decide

/-- C2, amended: for every feature collection whose first feature is a
line geometry with at least one coordinate pair, the export is the header,
then exactly the two-entry waypoint block (one wpt element at the first
coordinate pair labelled with the origin label, one at the last coordinate
pair labelled with the destination label, the lon attribute before the lat
attribute in each), then the track bodies and the footer.  On other shapes
with a coordinate pair the waypoints are not at that pair (see the
counterexample). -/
theorem claim_c2 (nm : Option String) (c : JNum × JNum) (cs : List (JNum × JNum))
    (rest : List GeoFeature) (o d : String) :
    geojsonToGpx (fcJS (GeoFeature.line nm (c :: cs) :: rest)) o d =
      .ok (gpxHeader
        ++ waypointsBlock (.num c.1) (.num c.2)
            (.num ((c :: cs).getLast (List.cons_ne_nil c cs)).1)
            (.num ((c :: cs).getLast (List.cons_ne_nil c cs)).2) o d
        ++ joinSep "\n" ((GeoFeature.line nm (c :: cs) :: rest).map GeoFeature.bodyStr)
        ++ "</gpx>")
    ∧ waypointsBlock (.num c.1) (.num c.2)
        (.num ((c :: cs).getLast (List.cons_ne_nil c cs)).1)
        (.num ((c :: cs).getLast (List.cons_ne_nil c cs)).2) o d =
      "\n<wpt lon=\"" ++ c.1.disp ++ "\" lat=\"" ++ c.2.disp ++ "\">\n  <name>" ++ o
        ++ "</name>\n</wpt>\n<wpt lon=\"" ++ ((c :: cs).getLast (List.cons_ne_nil c cs)).1.disp
        ++ "\" lat=\"" ++ ((c :: cs).getLast (List.cons_ne_nil c cs)).2.disp
        ++ "\">\n  <name>" ++ d ++ "</name>\n</wpt>\n" :=
  ⟨geojsonToGpx_eval nm c cs rest o d, rfl⟩

set_option maxRecDepth 4000 in
/-- C2 counterexample: the feature collection holding the single Point
feature (7, 9) is a shape whose geometry has one coordinate pair, yet the
export (which succeeds) contains no waypoint at that pair: both waypoint
entries read lon="undefined" lat="undefined", so the claim is false as
stated. -/
theorem claim_c2_counterexample :
    exceptIsOk (geojsonToGpx (fcJS [GeoFeature.point ⟨7, 1⟩ ⟨9, 1⟩]) "A" "B") = true
    ∧ exceptOkHas (geojsonToGpx (fcJS [GeoFeature.point ⟨7, 1⟩ ⟨9, 1⟩]) "A" "B")
        "<wpt lon=\"7\" lat=\"9\">" = false
    ∧ exceptOkHas (geojsonToGpx (fcJS [GeoFeature.point ⟨7, 1⟩ ⟨9, 1⟩]) "A" "B")
        "<wpt lon=\"undefined\" lat=\"undefined\">" = true := by
  decide

/-- C3 witness: on a concrete two-identifier batch against the succeeding
oracle, the fan-out returns a complete list of length two even when the
completion order is reversed. -/
theorem claim_c3_witness :
    ∃ l : List Pattern, resolvePatterns envOk ["p1", "p2"] [1, 0] = .ok l ∧ l.length = 2 := by
  have hperm : ([1, 0] : List Nat).Perm (List.range 2) := by decide
  simpa using (claim_c3 envOk ["p1", "p2"] [1, 0] hperm).1 (by decide)

/-- C4 witness: on a concrete batch the first element of the result is the
resolution of the first identifier. -/
theorem claim_c4_witness : resolveOne envOk "p1" = .ok patW := by
  simpa using
    (claim_c4 envOk ["p1"] [0] [patW] (by decide) rfl).2.1 0 (by decide) (by decide)

/-! ## Lemmas about the headsign splitter -/

/-- Reassembly of split parts: interleave the delimiter back. -/
def joinChars : List (List Char) → List Char
  | [] => []
  | p :: ps =>
    match ps with
    | [] => p
    | _ :: _ => p ++ delimChars ++ joinChars ps

theorem splitFuel_ne_nil (fuel : Nat) (l : List Char) : splitFuel fuel l ≠ [] := by
  match fuel, l with
  | _, [] => simp [splitFuel]
  | 0, c :: rest => simp [splitFuel]
  | fuel + 1, c :: rest =>
    simp only [splitFuel]
    split
    · simp
    · split <;> simp

theorem isPrefixOf_decomp {l : List Char} (hp : delimChars.isPrefixOf l = true) :
    l = delimChars ++ l.drop 3 := by
  obtain ⟨t, ht⟩ := List.isPrefixOf_iff_prefix.mp hp
  have h3 : (delimChars ++ t).drop 3 = t := List.drop_left delimChars t
  rw [← ht, h3]

theorem joinChars_splitFuel (fuel : Nat) : ∀ (l : List Char), l.length ≤ fuel →
    joinChars (splitFuel fuel l) = l := by
  induction fuel with
  | zero =>
    intro l hl
    have : l = [] := List.length_eq_zero.mp (Nat.le_zero.mp hl)
    subst this
    rfl
  | succ fuel ih =>
    intro l hl
    cases l with
    | nil => rfl
    | cons c rest =>
      have hr : rest.length ≤ fuel := by simpa using hl
      by_cases hp : delimChars.isPrefixOf (c :: rest) = true
      · simp only [splitFuel, hp, if_true]
        cases hsf : splitFuel fuel (rest.drop 2) with
        | nil => exact absurd hsf (splitFuel_ne_nil _ _)
        | cons q qs =>
          have hd : (rest.drop 2).length ≤ fuel :=
            le_trans (by simpa using List.length_drop_le 2 rest) hr
          have hih := ih (rest.drop 2) hd
          rw [hsf] at hih
          have hjoin : joinChars ([] :: q :: qs) = [] ++ delimChars ++ joinChars (q :: qs) := rfl
          rw [hjoin, hih, List.nil_append]
          simpa using (isPrefixOf_decomp hp).symm
      · simp only [splitFuel, hp, if_false]
        cases hsf : splitFuel fuel rest with
        | nil => exact absurd hsf (splitFuel_ne_nil _ _)
        | cons p ps =>
          have hih := ih rest hr
          rw [hsf] at hih
          cases ps with
          | nil =>
            simp only [joinChars] at hih ⊢
            rw [hih]
          | cons r rs =>
            simp only [joinChars] at hih ⊢
            simp [← hih]

theorem splitFuel_no_delim (fuel : Nat) : ∀ (l : List Char), l.length ≤ fuel →
    hasInfix delimChars l = false → splitFuel fuel l = [l] := by
  induction fuel with
  | zero =>
    intro l hl _
    have : l = [] := List.length_eq_zero.mp (Nat.le_zero.mp hl)
    subst this
    rfl
  | succ fuel ih =>
    intro l hl hni
    cases l with
    | nil => rfl
    | cons c rest =>
      rw [hasInfix, Bool.or_eq_false_iff] at hni
      obtain ⟨hp, hrest⟩ := hni
      have hr : rest.length ≤ fuel := by simpa using hl
      simp only [splitFuel, hp, ih rest hr hrest]
      rfl

theorem splitOnDelim_no_delim {l : List Char} (h : hasInfix delimChars l = false) :
    splitOnDelim l = [l] :=
  splitFuel_no_delim l.length l le_rfl h

/-- Concrete pattern X used by the selection-race scenario. -/
def patX : Pattern :=
  { id := "pX", headsign := "A - B", long_name := "", shape_id := "shX",
    route_id := "r1", route_long_name := "" }

/-- Concrete pattern Y used by the selection-race scenario. -/
def patY : Pattern :=
  { id := "pY", headsign := "C - D", long_name := "", shape_id := "shY",
    route_id := "r1", route_long_name := "" }

/-- Shape fetched for patX's shape identifier in the scenario. -/
def shapeX : Shape := { geojson := .str "geoX" }

/-- Shape fetched for patY's shape identifier in the scenario. -/
def shapeY : Shape := { geojson := .null }

/-- C5 (the code violates the claim): in the interleaving where pattern X
is selected, then pattern Y is selected, then Y's shape fetch resolves,
and finally X's stale shape fetch resolves, the final state displays Y as
the selected pattern but X's shape as the loaded shape — the stale fetch
result is committed, not discarded, although the two patterns have
different shape identifiers and the two shapes differ.  Moreover merely
selecting a new pattern leaves the previous selection's shape loaded. -/
theorem claim_c5 :
    (runEvents initState [.select patX, .select patY,
        .shapeArrives patY (some shapeY), .shapeArrives patX (some shapeX)]).selectedPattern
      = some patY
    ∧ (runEvents initState [.select patX, .select patY,
        .shapeArrives patY (some shapeY), .shapeArrives patX (some shapeX)]).shapeData
      = some shapeX
    ∧ shapeX.geojson ≠ shapeY.geojson
    ∧ patX.shape_id ≠ patY.shape_id
    ∧ (runEvents initState [.select patX, .shapeArrives patX (some shapeX),
        .select patY]).selectedPattern = some patY
    ∧ (runEvents initState [.select patX, .shapeArrives patX (some shapeX),
        .select patY]).shapeData = some shapeX := by
  refine ⟨rfl, rfl, ?_, by decide, rfl, rfl⟩
  intro hcon
  exact JSVal.noConfusion hcon

/-- C6: getRouteEndpoints splits on the literal delimiter " - " and
returns the first and last segments: the split reassembles to the input
(so it is a genuine decomposition along the delimiter), a headsign without
the delimiter yields origin and destination both equal to the whole
string, and the specification's three examples hold. -/
theorem claim_c6 :
    (∀ l : List Char, joinChars (splitOnDelim l) = l)
    ∧ (∀ h : String, hasInfix delimChars h.data = false → getRouteEndpoints h = (h, h))
    ∧ getRouteEndpoints "Cacilhas - Lisboa" = ("Cacilhas", "Lisboa")
    ∧ getRouteEndpoints "SingleTerm" = ("SingleTerm", "SingleTerm")
    ∧ getRouteEndpoints "A - B - C" = ("A", "C") := by
  refine ⟨?_, ?_, by decide, by decide, by decide⟩
  · intro l
    exact joinChars_splitFuel l.length l le_rfl
  · intro h hh
    simp only [getRouteEndpoints, splitOnDelim_no_delim hh]
    rfl

/-- C6 witness: the no-delimiter branch of the claim at a concrete
headsign. -/
theorem claim_c6_witness :
    hasInfix delimChars "SingleWord".data = false
    ∧ getRouteEndpoints "SingleWord" = ("SingleWord", "SingleWord") :=
  ⟨by decide, claim_c6.2.1 "SingleWord" (by decide)⟩

/-- C7, amended: the converter fails with the invalid-GeoJSON error
exactly on inputs that are falsy or not typed "FeatureCollection"
(geometry absent or of unsupported structural shape); an empty collection
fails with the missing-coordinates error; and a collection of only
non-line (Point) features is a non-fatal degenerate case with an empty
track body provided the first feature's first and last coordinate entries
are JS-truthy — when such an entry is falsy (for example the number 0) the
export fails instead (see the counterexample). -/
theorem claim_c7 :
    (∀ (o d : String) (v : JSVal), jsEqStr (getPropD v "type") "FeatureCollection" = false →
        geojsonToGpx v o d = .error invalidGeoJsonMsg)
    ∧ (∀ o d : String, geojsonToGpx (fcJS []) o d = .error missingCoordsMsg)
    ∧ (∀ (x y : JNum) (pts : List (JNum × JNum)) (o d : String), x.num ≠ 0 → y.num ≠ 0 →
        geojsonToGpx (fcJS (GeoFeature.point x y ::
            pts.map (fun p => GeoFeature.point p.1 p.2))) o d
          = .ok (gpxHeader ++ waypointsBlock .undefined .undefined .undefined .undefined o d
              ++ joinSep "\n" (List.replicate (pts.length + 1) "") ++ "</gpx>")) := by
  refine ⟨?_, ?_, ?_⟩
  · intro o d v hty
    by_cases htr : jsTruthy v = true
    · simp [geojsonToGpx, htr, getProp_of_truthy htr, hty]
    · have hf : jsTruthy v = false := by revert htr; cases jsTruthy v <;> simp
      simp [geojsonToGpx, hf]
  · intro o d
    rfl
  · intro x y pts o d hx hy
    have hrepl : ∀ l : List (JNum × JNum),
        (l.map (fun p => GeoFeature.point p.1 p.2)).map GeoFeature.bodyStr =
          List.replicate l.length "" := by
      intro l
      induction l with
      | nil => rfl
      | cons a t ih => simp [GeoFeature.bodyStr, ih, List.replicate_succ]
    have hbody : mapStrE featureBody
        ((GeoFeature.point x y :: pts.map (fun p => GeoFeature.point p.1 p.2)).map
          GeoFeature.toJS)
        = .ok (List.replicate (pts.length + 1) "") := by
      rw [mapStrE_featureBody]
      simp [GeoFeature.bodyStr, hrepl pts, List.replicate_succ]
    simp only [GeoFeature.toJS, List.map_cons, List.map_map] at hbody
    have h0 : JNum.toIndex? { num := 0, den := 1 } = some 0 := rfl
    have hidx : (JNum.sub1 { num := 2, den := 1 }).toIndex? = some 1 := rfl
    simp [geojsonToGpx, fcJS, GeoFeature.toJS, getProp, lookupField, indexAt,
      jsTruthy, jsNullish, jsEqStr, firstCoordOf, lastCoordOf, hbody, h0, hidx, hx, hy]

/-- C7 witness: the amended claim at concrete inputs: a non-collection
input fails with the invalid-GeoJSON error, the empty collection fails
with the missing-coordinates error, and a single-Point collection with
truthy entries succeeds with an empty track body. -/
theorem claim_c7_witness :
    geojsonToGpx (JSVal.str "nope") "A" "B" = .error invalidGeoJsonMsg
    ∧ geojsonToGpx (fcJS []) "A" "B" = .error missingCoordsMsg
    ∧ geojsonToGpx (fcJS [GeoFeature.point ⟨7, 1⟩ ⟨9, 1⟩]) "A" "B" =
        .ok (gpxHeader ++ waypointsBlock .undefined .undefined .undefined .undefined "A" "B"
          ++ joinSep "\n" (List.replicate 1 "") ++ "</gpx>") :=
  ⟨claim_c7.1 "A" "B" (JSVal.str "nope") (by decide),
   claim_c7.2.1 "A" "B",
   by simpa using claim_c7.2.2 ⟨7, 1⟩ ⟨9, 1⟩ [] "A" "B" (by decide) (by decide)⟩

/-- C7 counterexample: the feature collection holding only the non-line
feature Point (0, 9) neither succeeds with an empty track body nor is its
geometry absent, empty or of the unsupported top-level shape — yet the
export fails (the first coordinate entry 0 is JS-falsy), so the claim is
false as stated. -/
theorem claim_c7_counterexample :
    geojsonToGpx (fcJS [GeoFeature.point ⟨0, 1⟩ ⟨9, 1⟩]) "A" "B" =
      .error missingCoordsMsg := by
  rfl

/-- C8: an identifier that is empty after trimming sets the validation
message, changes nothing else and issues no network request; a non-empty
identifier passes validation and the line lookup request is issued. -/
theorem claim_c8 (env : FetchEnv) (order : List Nat) (st : AppState) :
    (jsTrim st.routeNumber = "" →
        searchRoute env order st = ({ st with error := emptyLineMsg }, []))
    ∧ (jsTrim st.routeNumber ≠ "" →
        Request.lineReq st.routeNumber ∈ (searchRoute env order st).2) := by
  constructor
  · intro h
    simp [searchRoute, h]
  · intro h
    simp only [searchRoute, if_neg h]
    cases henv : env.lines st.routeNumber with
    | none => simp [henv]
    | some data =>
      cases hrp : resolvePatterns env data.patterns order <;> simp [henv, hrp]

/-- C8 witness: a whitespace-only identifier fails validation with no
requests; requesting the identifier 42 issues the line request. -/
theorem claim_c8_witness :
    searchRoute envTrivial [] { initState with routeNumber := "  " } =
      ({ initState with routeNumber := "  ", error := emptyLineMsg }, [])
    ∧ Request.lineReq "42" ∈ (searchRoute envTrivial [] { initState with routeNumber := "42" }).2 := by
  constructor
  · exact (claim_c8 envTrivial [] _).1 (by decide)
  · simpa using (claim_c8 envTrivial [] { initState with routeNumber := "42" }).2 (by decide)

/-- C9, amended: the track emitted for a line-geometry feature is named by
the feature's own name property when it is present and truthy, and by the
fixed literal "Rota" otherwise — the converter takes no caller-supplied
track-name argument (see the counterexample). -/
theorem claim_c9 (nm : Option String) (coords : List (JNum × JNum)) :
    featureBody (GeoFeature.toJS (GeoFeature.line nm coords)) =
      .ok ("<trk><name>"
        ++ (match nm with
            | some s => if s = "" then "Rota" else s
            | none => "Rota")
        ++ "</name><trkseg>" ++ joinSep "\n" (coords.map trkptStr) ++ "</trkseg></trk>") :=
  featureBody_toJS (GeoFeature.line nm coords)

set_option maxRecDepth 4000 in
/-- C9 counterexample: a line feature without a name property is exported
with the fixed track name Rota; instantiating the claim's caller-supplied
track name at MyTrack, the emitted name does not equal it, so no
caller-supplied fallback exists. -/
theorem claim_c9_counterexample :
    exceptOkHas (geojsonToGpx (fcJS [GeoFeature.line none [(⟨1, 1⟩, ⟨2, 1⟩)]]) "A" "B")
        "<trk><name>Rota</name>" = true
    ∧ exceptOkHas (geojsonToGpx (fcJS [GeoFeature.line none [(⟨1, 1⟩, ⟨2, 1⟩)]]) "A" "B")
        "<trk><name>MyTrack</name>" = false := by
  decide

/-- C10: whenever no pattern is selected, no shape is loaded or no line
details are present, the export sets the guard message, produces no
document, and leaves the selected pattern, the loaded shape and the line
details unchanged. -/
theorem claim_c10 (st : AppState)
    (h : st.selectedPattern = none ∨ st.shapeData = none ∨ st.routeDetails = none) :
    downloadGPX st = ({ st with error := noSelectionMsg }, none)
    ∧ (downloadGPX st).1.selectedPattern = st.selectedPattern
    ∧ (downloadGPX st).1.shapeData = st.shapeData
    ∧ (downloadGPX st).1.routeDetails = st.routeDetails
    ∧ (downloadGPX st).2 = none
    ∧ (downloadGPX st).1.error = noSelectionMsg := by
  have heq : downloadGPX st = ({ st with error := noSelectionMsg }, none) := by
    cases hsp : st.selectedPattern with
    | none => simp [downloadGPX, hsp]
    | some sp =>
      cases hsh : st.shapeData with
      | none => simp [downloadGPX, hsp, hsh]
      | some sh =>
        cases hrd : st.routeDetails with
        | none => simp [downloadGPX, hsp, hsh, hrd]
        | some rd => simp_all
  refine ⟨heq, ?_, ?_, ?_, ?_, ?_⟩ <;> rw [heq]

/-- C10 witness: the guard at the initial state (nothing selected or
loaded). -/
theorem claim_c10_witness :
    downloadGPX initState = ({ initState with error := noSelectionMsg }, none) :=
  (claim_c10 initState (Or.inl rfl)).1
